import Mathlib

/-!
Shallow embedding of the mobile PWA's client-side core
(phone validation/formatting, error classification and retry,
location cache, session-gate middleware) together with proofs of
the specification's claims about it.

Strings are modelled as Lean `String`s, with the character-level
work done on `List Char` (JavaScript string methods such as
`replace(/\D/g, '')`, `slice`, `startsWith`, `includes`, `trim`
become list operations).  JavaScript numbers that carry
coordinates are modelled as `JNum` (a rational, NaN, or a
non-number), epoch-millisecond timestamps as `Int`.
-/

namespace MobilePwa

/-! ## JavaScript string primitives -/

/-- The ASCII whitespace characters removed by JavaScript `trim()`. -/
def jsWhitespace (c : Char) : Bool :=
  c = ' ' || c = '\t' || c = '\n' || c = '\r' || c = '\x0b' || c = '\x0c'

/-- JavaScript `String.prototype.trim` on a character list. -/
def jsTrimL (l : List Char) : List Char :=
  ((l.dropWhile jsWhitespace).reverse.dropWhile jsWhitespace).reverse

/-- JavaScript `String.prototype.trim`. -/
def jsTrim (s : String) : String :=
  String.mk (jsTrimL s.toList)

/-- JavaScript `haystack.includes(needle)` on character lists. -/
def hasInfix (hay needle : List Char) : Bool :=
  match hay with
  | [] => needle.isEmpty
  | _ :: t => needle.isPrefixOf hay || hasInfix t needle

/-- Lower-cased `toString()` inclusion test used by `detectErrorType`. -/
def lowerIncludes (s : String) (needle : String) : Bool :=
  hasInfix (s.toList.map Char.toLower) needle.toList

/-- Number of decimal-digit characters in a character list. -/
def digitCountL (l : List Char) : Nat :=
  (l.filter Char.isDigit).length

/-- Number of decimal-digit characters in a string. -/
def digitCount (s : String) : Nat :=
  digitCountL s.toList

/-! ## Validation module (src/lib/validation) -/

/-- Model of `ValidationResult` record: `{ valid, message? }`. -/
structure ValidationResult where
  valid : Bool
  message : Option String
deriving DecidableEq, Repr

/-- Model of `validatePhoneNumber` on the character list of the input.
Mirrors the source: empty (falsy) input is rejected, the input is
trimmed, must start with `+`, the remainder must match `/^\d+$/`,
and the digit count must lie in [10, 15]. -/
def validatePhoneNumberL (l : List Char) : ValidationResult :=
  if l = [] then
    ⟨false, some "Phone number is required"⟩
  else if (jsTrimL l).head? = some '+' then
    if !(!(jsTrimL l).tail.isEmpty && (jsTrimL l).tail.all Char.isDigit) then
      ⟨false, some "Phone number can only contain digits after the country code"⟩
    else if (jsTrimL l).tail.length < 10 ∨ (jsTrimL l).tail.length > 15 then
      ⟨false, some "Phone number must be 10-15 digits long"⟩
    else
      ⟨true, none⟩
  else ⟨false, some "Phone number must include country code (e.g., +1)"⟩

/-- Model of `validatePhoneNumber(phone)` from src/lib/validation. -/
def validatePhoneNumber (phone : String) : ValidationResult :=
  validatePhoneNumberL phone.toList

/-! ## Phone formatting module (src/lib/phone) -/

/-- JavaScript `input.replace(/[^\d+]/g, '')`: keep digits and
every `+` sign (not only a leading one). -/
def cleanPhoneL (l : List Char) : List Char :=
  l.filter (fun c => c.isDigit || c = '+')

/-- Helper `formatUSPhone(digits)`: progressive `(AAA) EEE-NNNN`
rendering with truncation past ten characters, mirroring the
source's `slice` arithmetic. -/
def formatUSPhoneL (d : List Char) : List Char :=
  if d.length = 0 then []
  else if d.length ≤ 3 then '(' :: d
  else if d.length ≤ 6 then '(' :: d.take 3 ++ ')' :: ' ' :: d.drop 3
  else if d.length ≤ 10 then
    '(' :: d.take 3 ++ ')' :: ' ' :: (d.drop 3).take 3 ++ '-' :: d.drop 6
  else
    '(' :: d.take 3 ++ ')' :: ' ' :: (d.drop 3).take 3 ++ '-' :: (d.drop 6).take 4

/-- Model of `formatPhoneAsUserTypes(input)` on the character list: strips
non-dial characters, handles a leading `+1` specially (dropping the
country code before US formatting), passes other `+`-prefixed values
through, and US-formats bare input. -/
def formatPhoneAsUserTypesL (l : List Char) : List Char :=
  if l = [] then []
  else if (cleanPhoneL l).head? = some '+' then
    if (cleanPhoneL l).tail.head? = some '1' ∧ (cleanPhoneL l).tail.length ≤ 11 then
      formatUSPhoneL (cleanPhoneL l).tail.tail
    else '+' :: (cleanPhoneL l).tail
  else formatUSPhoneL (cleanPhoneL l)

/-- Model of `formatPhoneAsUserTypes` from src/lib/phone. -/
def formatPhoneAsUserTypes (input : String) : String :=
  String.mk (formatPhoneAsUserTypesL input.toList)

/-- The `(AAA) EEE-NNNN` rendering used by `formatPhoneForDisplay`
on a ten-character digit list (`slice(0,3)`, `slice(3,6)`, `slice(6)`). -/
def usDisplayL (d : List Char) : List Char :=
  '(' :: d.take 3 ++ ')' :: ' ' :: (d.drop 3).take 3 ++ '-' :: d.drop 6

/-- Model of `formatPhoneForDisplay(phone)` on the character list: formats an
11-digit value starting with `1` or a bare 10-digit value; otherwise
returns the input unchanged (the source's `+`-prefixed branch and its
fallback both return the original string). -/
def formatPhoneForDisplayL (l : List Char) : List Char :=
  if l = [] then []
  else if (l.filter Char.isDigit).length = 11 ∧ (l.filter Char.isDigit).head? = some '1' then
    usDisplayL (l.filter Char.isDigit).tail
  else if (l.filter Char.isDigit).length = 10 then usDisplayL (l.filter Char.isDigit)
  else l

/-- Model of `formatPhoneForDisplay` from src/lib/phone. -/
def formatPhoneForDisplay (phone : String) : String :=
  String.mk (formatPhoneForDisplayL phone.toList)

/-- Model of `parsePhoneToE164(input)` on the character list: a `+`-prefixed
cleaned value is returned as-is; ten digits get `+1`; eleven digits
starting with `1` get `+`; anything else returns the original input. -/
def parsePhoneToE164L (l : List Char) : List Char :=
  if l = [] then []
  else if (cleanPhoneL l).head? = some '+' then cleanPhoneL l
  else if ((cleanPhoneL l).filter Char.isDigit).length = 10 then
    '+' :: '1' :: (cleanPhoneL l).filter Char.isDigit
  else if ((cleanPhoneL l).filter Char.isDigit).length = 11 ∧
      ((cleanPhoneL l).filter Char.isDigit).head? = some '1' then
    '+' :: (cleanPhoneL l).filter Char.isDigit
  else l

/-- Model of `parsePhoneToE164` from src/lib/phone. -/
def parsePhoneToE164 (input : String) : String :=
  String.mk (parsePhoneToE164L input.toList)

/-! ## Session/auth gate (src/middleware.ts)

The middleware's observable behaviour is a function of the request
pathname and whether the session lookup produced a user; the response
is either a pass-through or a redirect to a path with a query string
(modelled as key/value pairs rather than their URL encoding). -/

/-- The middleware's `protectedRoutes` list. -/
def protectedRoutes : List String := ["/feed", "/workout", "/profile", "/friends"]

/-- The middleware's `publicRoutes` list. -/
def publicRoutes : List String := ["/login", "/register", "/profile-setup"]

/-- JavaScript `pathname.startsWith(route)`. -/
def jsStartsWith (pathname route : String) : Bool :=
  route.toList.isPrefixOf pathname.toList

/-- Model of `protectedRoutes.some(route => pathname.startsWith(route))`. -/
def isProtectedRoute (pathname : String) : Bool :=
  protectedRoutes.any (fun r => jsStartsWith pathname r)

/-- Model of `publicRoutes.some(route => pathname.startsWith(route))`. -/
def isPublicRoute (pathname : String) : Bool :=
  publicRoutes.any (fun r => jsStartsWith pathname r)

/-- Middleware outcome: pass the request through, or redirect to a
path carrying a query string. -/
inductive MwResponse where
  | next : MwResponse
  | redirect (path : String) (query : List (String × String)) : MwResponse
deriving DecidableEq, Repr

/-- Model of `middleware(request)` from src/middleware.ts, as a function of the
request pathname and of whether `supabase.auth.getUser()` returned a
user. -/
def middleware (pathname : String) (user : Bool) : MwResponse :=
  if pathname = "/" then
    if user then .redirect "/feed" [] else .redirect "/login" []
  else if isProtectedRoute pathname && !user then
    .redirect "/login" [("redirect", pathname)]
  else if isPublicRoute pathname && user then
    .redirect "/feed" []
  else
    .next

/-! ## Error classification module (src/lib/utils/errors.ts)

A JavaScript error value is modelled by the fields the module
inspects: the `toString()` rendering, and the optional `message`,
`status`, `code`, `name` and `field` properties. -/

/-- The observable fields of a JavaScript error value. -/
structure JSError where
  str : String
  message : Option String := none
  status : Option Int := none
  code : Option String := none
  name : Option String := none
  field : Option String := none
deriving DecidableEq, Repr

/-- The error taxonomy. -/
inductive ErrorType where
  | NETWORK | VALIDATION | AUTHENTICATION | PERMISSION | DATA | PHONE | UNKNOWN
deriving DecidableEq, Repr

/-- One entry of the `ERROR_MESSAGES` table. -/
structure ErrorMessageEntry where
  userMessage : String
  actionable : String
  retryable : Bool
deriving DecidableEq, Repr

/-- The `ERROR_MESSAGES` table mapping each type to its static
user-facing triple. -/
def ERROR_MESSAGES : ErrorType → ErrorMessageEntry
  | .NETWORK =>
    ⟨"Network connection issue. Please check your internet connection.",
     "Try again or check your internet connection.", true⟩
  | .VALIDATION =>
    ⟨"Please check your input and try again.",
     "Review the highlighted fields and correct any errors.", false⟩
  | .AUTHENTICATION =>
    ⟨"Your session has expired. Please log in again.",
     "Please log in again to continue.", false⟩
  | .PERMISSION =>
    ⟨"Permission required to continue.",
     "Please allow the requested permission in your browser settings.", false⟩
  | .DATA =>
    ⟨"Unable to load your data. Please try again.",
     "Refresh the page or try again later.", true⟩
  | .PHONE =>
    ⟨"Please enter a valid phone number with country code (e.g., +1 555-555-5555)",
     "Make sure your phone number includes the country code and is in the correct format.", false⟩
  | .UNKNOWN =>
    ⟨"Something went wrong. Please try again.",
     "If the problem persists, please contact support.", true⟩

/-- Model of `error.message?.toLowerCase() || ''`, as a character list. -/
def errMessageLower (e : JSError) : List Char :=
  ((e.message.getD "").toList.map Char.toLower)

/-- The network-indicator test of `detectErrorType` (first check). -/
def networkCond (e : JSError) : Bool :=
  lowerIncludes e.str "network" || lowerIncludes e.str "fetch" ||
  lowerIncludes e.str "connection" || lowerIncludes e.str "timeout" ||
  e.code == some "NETWORK_ERROR" || e.code == some "TIMEOUT" ||
  (match e.status with
   | some s => decide (500 ≤ s) && decide (s < 600)
   | none => false)

/-- The authentication-indicator test of `detectErrorType`. -/
def authCond (e : JSError) : Bool :=
  lowerIncludes e.str "unauthorized" || lowerIncludes e.str "forbidden" ||
  lowerIncludes e.str "authentication" || lowerIncludes e.str "session" ||
  e.status == some 401 || e.status == some 403 ||
  e.code == some "AUTH_ERROR" || e.code == some "SESSION_EXPIRED"

/-- The permission-indicator test of `detectErrorType`. -/
def permissionCond (e : JSError) : Bool :=
  lowerIncludes e.str "permission" || lowerIncludes e.str "denied" ||
  lowerIncludes e.str "blocked" ||
  e.name == some "NotAllowedError" || e.name == some "PermissionDeniedError"

/-- The phone-indicator test of `detectErrorType` (the `context`
string is consulted case-sensitively, the message lower-cased). -/
def phoneCond (e : JSError) (context : Option String) : Bool :=
  (match context with
   | some c => hasInfix c.toList "phone".toList
   | none => false) ||
  lowerIncludes e.str "phone" ||
  hasInfix (errMessageLower e) "phone".toList ||
  e.code == some "INVALID_PHONE" || e.code == some "PHONE_ALREADY_EXISTS"

/-- The validation-indicator test of `detectErrorType`. -/
def validationCond (e : JSError) : Bool :=
  lowerIncludes e.str "validation" || lowerIncludes e.str "invalid" ||
  lowerIncludes e.str "required" ||
  e.status == some 400 || e.code == some "VALIDATION_ERROR"

/-- The data-indicator test of `detectErrorType`. -/
def dataCond (e : JSError) : Bool :=
  lowerIncludes e.str "not found" || lowerIncludes e.str "does not exist" ||
  e.status == some 404 || e.code == some "NOT_FOUND" || e.code == some "PROFILE_NOT_FOUND"

/-- Model of `detectErrorType(error, context?)`: first matching indicator
wins; a falsy error is UNKNOWN. -/
def detectErrorType : Option JSError → Option String → ErrorType
  | none, _ => .UNKNOWN
  | some e, context =>
    if networkCond e then .NETWORK
    else if authCond e then .AUTHENTICATION
    else if permissionCond e then .PERMISSION
    else if phoneCond e context then .PHONE
    else if validationCond e then .VALIDATION
    else if dataCond e then .DATA
    else .UNKNOWN

/-- The result of `getPhoneSpecificError` / `getValidationSpecificError`:
a refined user message and actionable hint. -/
structure RefinedError where
  message : String
  actionable : String
deriving DecidableEq, Repr

/-- Model of `error.code || ''`. -/
def errCode (e : JSError) : String := e.code.getD ""

/-- Model of `getPhoneSpecificError(error)`: refine the PHONE message from the
error's message text or code, first match wins. -/
def getPhoneSpecificError (e : JSError) : RefinedError :=
  let m := errMessageLower e
  if hasInfix m "already".toList || hasInfix m "exists".toList ||
     errCode e = "PHONE_ALREADY_EXISTS" then
    ⟨"This phone number is already registered. Try logging in instead.",
     "Try logging in instead, or contact support if you forgot your password."⟩
  else if hasInfix m "country".toList || hasInfix m "code".toList ||
     errCode e = "INVALID_COUNTRY_CODE" then
    ⟨"Please include a valid country code (e.g., +1 for US)",
     "Make sure to include your country code (e.g., +1 for US, +44 for UK)."⟩
  else if hasInfix m "short".toList || hasInfix m "length".toList ||
     errCode e = "PHONE_TOO_SHORT" then
    ⟨"Phone number is too short. Please include the full number with country code.",
     "Include the full phone number with country code."⟩
  else if hasInfix m "long".toList || errCode e = "PHONE_TOO_LONG" then
    ⟨"Phone number is too long. Please check the format.",
     "Check that your phone number is in the correct format."⟩
  else if hasInfix m "invalid".toList || hasInfix m "character".toList ||
     errCode e = "INVALID_CHARACTERS" then
    ⟨"Phone number contains invalid characters. Use only numbers and + sign.",
     "Use only numbers and the + sign for country code."⟩
  else
    ⟨"Please enter a valid phone number with country code (e.g., +1 555-555-5555)",
     "Make sure your phone number includes the country code and is in the correct format."⟩

/-- Model of `getValidationSpecificError(error)`: refine the VALIDATION message
from the error's `field` or message text; `none` when no rule applies. -/
def getValidationSpecificError (e : JSError) : Option RefinedError :=
  let m := errMessageLower e
  let fld := e.field.getD ""
  if fld = "name" || hasInfix m "name".toList then
    some ⟨"Please enter a valid name.",
      "Name should be at least 2 characters long and contain only letters."⟩
  else if fld = "email" || hasInfix m "email".toList then
    some ⟨"Please enter a valid email address.",
      "Make sure your email address is in the correct format (e.g., user@example.com)."⟩
  else if fld = "password" || hasInfix m "password".toList then
    some ⟨"Password must be at least 6 characters long.",
      "Choose a password with at least 6 characters."⟩
  else
    none

/-- The `ErrorInfo` record (the opaque `originalError` field is
omitted: it is the input error itself). -/
structure ErrorInfo where
  type : ErrorType
  message : String
  userMessage : String
  actionable : String
  retryable : Bool
  context : Option String
deriving DecidableEq, Repr

/-- Model of `createErrorInfo(error, context?, customUserMessage?)`: classify,
take the static triple for the type, refine PHONE and VALIDATION
messages, and carry `retryable` from the table.  (The call also logs
to the console, a side effect outside this model.) -/
def createErrorInfo (error : JSError) (context : Option String)
    (customUserMessage : Option String) : ErrorInfo :=
  let type := detectErrorType (some error) context
  let base := ERROR_MESSAGES type
  let custom :=
    match customUserMessage with
    | some c => if c = "" then base.userMessage else c
    | none => base.userMessage
  let refined : String × String :=
    if type = .PHONE then
      let p := getPhoneSpecificError error
      (p.message, p.actionable)
    else if type = .VALIDATION then
      match getValidationSpecificError error with
      | some v => (v.message, v.actionable)
      | none => (custom, base.actionable)
    else
      (custom, base.actionable)
  { type := type
    message :=
      match error.message with
      | some m => if m = "" then error.str else m
      | none => error.str
    userMessage := refined.1
    actionable := refined.2
    retryable := base.retryable
    context := context }

/-! ## retryOperation (src/lib/utils/errors.ts)

The operation under retry is modelled as a map from the attempt
number (starting at 1) to that invocation's outcome; the run is
summarised by its final outcome (`Except.error none` models the
`throw lastError` reached with `maxAttempts = 0`, where `lastError`
is still `undefined`), the number of invocations, and the list of
inter-attempt delays actually slept. -/

/-- Retry options `{maxAttempts, delay, backoff}`. -/
structure RetryOptions where
  maxAttempts : Nat
  delay : Nat
  backoff : Bool
deriving DecidableEq, Repr

/-- Summary of one `retryOperation` run. -/
structure RetryResult (α : Type) where
  outcome : Except (Option JSError) α
  invocations : Nat
  delays : List Nat
deriving Repr

/-- The `retryable` flag `ERROR_MESSAGES[detectErrorType(error)].retryable`
consulted inside the retry loop (no context is passed there). -/
def retryableOf (e : JSError) : Bool :=
  (ERROR_MESSAGES (detectErrorType (some e) none)).retryable

/-- The retry loop of `retryOperation`, with `fuel` the number of
attempts still allowed (`maxAttempts - attempt + 1` at the source's
loop head) and `attempt` the 1-based attempt counter. -/
def retryGo {α : Type} (op : Nat → Except JSError α) (opts : RetryOptions) :
    Nat → Nat → RetryResult α
  | 0, _ => ⟨.error none, 0, []⟩
  | fuel + 1, attempt =>
    match op attempt with
    | .ok v => ⟨.ok v, 1, []⟩
    | .error e =>
      if !retryableOf e then ⟨.error (some e), 1, []⟩
      else if fuel = 0 then ⟨.error (some e), 1, []⟩
      else
        let d := if opts.backoff then opts.delay * 2 ^ (attempt - 1) else opts.delay
        let r := retryGo op opts fuel (attempt + 1)
        ⟨r.outcome, r.invocations + 1, d :: r.delays⟩

/-- Model of `retryOperation(operation, options)` from src/lib/utils/errors.ts. -/
def retryOperation {α : Type} (op : Nat → Except JSError α)
    (opts : RetryOptions) : RetryResult α :=
  retryGo op opts opts.maxAttempts 1

/-! ## Location service cache (src/lib/services/location.ts)

The single localStorage slot under `workoutsync_cached_location` is
modelled as `Option StoredCell`: absent, a JSON string that fails to
parse, or a parsed record.  Coordinate fields coming back from JSON
(or passed at runtime) are `JNum`: a rational number, `NaN`, or a
non-number value.  `Date.now()` is passed in explicitly as an
epoch-millisecond integer. -/

/-- A JavaScript value sitting in a coordinate position. -/
inductive JNum where
  | num (x : ℚ) : JNum
  | nan : JNum
  | other : JNum
deriving DecidableEq, Repr

/-- The parsed shape of a stored cache entry. -/
structure RawCachedLocation where
  latitude : JNum
  longitude : JNum
  name : String
  timestamp : Int
deriving DecidableEq, Repr

/-- Contents of the `workoutsync_cached_location` storage key. -/
inductive StoredCell where
  | malformed : StoredCell
  | entry (e : RawCachedLocation) : StoredCell
deriving DecidableEq, Repr

/-- Model of `CACHE_DURATION_MS = 24 * 60 * 60 * 1000`. -/
def CACHE_DURATION_MS : Int := 24 * 60 * 60 * 1000

/-- Model of `isValidCoordinates(lat, lng)`: both values are numbers, not NaN,
and within [-90, 90] x [-180, 180]. -/
def isValidCoordinates (lat lng : JNum) : Bool :=
  match lat, lng with
  | .num la, .num lo =>
    decide (-90 ≤ la) && decide (la ≤ 90) && decide (-180 ≤ lo) && decide (lo ≤ 180)
  | _, _ => false

/-- Model of `getCachedLocation()`: returns the still-valid entry, or removes
the key and returns null when the entry is absent, unparseable,
expired, or carries invalid coordinates.  The result pairs the
returned value with the storage cell after the call. -/
def getCachedLocation : Option StoredCell → Int →
    Option RawCachedLocation × Option StoredCell
  | none, _ => (none, none)
  | some .malformed, _ => (none, none)
  | some (.entry e), now =>
    if now - e.timestamp > CACHE_DURATION_MS then (none, none)
    else if !isValidCoordinates e.latitude e.longitude then (none, none)
    else (some e, some (.entry e))

/-- Model of `cacheLocation(lat, lng, name)`: writes the entry with a trimmed
name and the current timestamp, or silently leaves the store
untouched when the coordinates are invalid or the name trims to the
empty (falsy) string. -/
def cacheLocation (store : Option StoredCell) (now : Int)
    (lat lng : JNum) (name : String) : Option StoredCell :=
  if !isValidCoordinates lat lng || jsTrim name = "" then store
  else some (.entry ⟨lat, lng, jsTrim name, now⟩)

/-- Where a `getUserLocation` result came from. -/
inductive LocationSource where
  | gps | cache
deriving DecidableEq, Repr

/-- The success value of `getUserLocation`. -/
structure UserLocation where
  latitude : JNum
  longitude : JNum
  name : String
  source : LocationSource
deriving DecidableEq, Repr

/-- Model of `getUserLocation()`: serve from the cache when `getCachedLocation`
returns an entry; otherwise consult the device position (`detect`,
`null` on failure) and the reverse geocoder (`geoName`), cache the
result and tag it `gps`.  Returns the value together with the storage
cell after the call. -/
def getUserLocation (store : Option StoredCell) (now : Int)
    (detect : Option (ℚ × ℚ)) (geoName : ℚ → ℚ → String) :
    Option UserLocation × Option StoredCell :=
  match getCachedLocation store now with
  | (some c, store1) =>
    (some ⟨c.latitude, c.longitude, c.name, .cache⟩, store1)
  | (none, store1) =>
    match detect with
    | none => (none, store1)
    | some (la, lo) =>
      let nm := geoName la lo
      let store2 := cacheLocation store1 now (.num la) (.num lo) nm
      (some ⟨.num la, .num lo, nm, .gps⟩, store2)

/-! ## Helper lemmas -/

/-- Rebuilding a string from its character list is the identity. -/
lemma mk_toList (s : String) : String.mk s.toList = s := rfl

/-- Canonical dialing form: a leading `+` followed by 10 to 15
decimal digits and nothing else. -/
def isCanonicalPhone (s : String) : Bool :=
  s.toList.head? = some '+' && s.toList.tail.all Char.isDigit &&
  decide (10 ≤ s.toList.tail.length) && decide (s.toList.tail.length ≤ 15)

/-- Stripping to dial characters keeps an all-digit tail after a
leading plus intact. -/
lemma cleanPhoneL_canonical (ds : List Char) (hds : ds.all Char.isDigit = true) :
    cleanPhoneL ('+' :: ds) = '+' :: ds := by
  have hmem : ∀ c ∈ ds, (c.isDigit || decide (c = '+')) = true := by
    intro c hc
    have := List.all_eq_true.mp hds c hc
    simp [this]
  simp [cleanPhoneL, List.filter_cons, List.filter_eq_self.mpr hmem]

/-- On a canonical input `parsePhoneToE164` is the identity: the
cleaned value still starts with `+` and is returned as-is. -/
lemma parsePhoneToE164_canonical (s : String) (h : isCanonicalPhone s = true) :
    parsePhoneToE164 s = s := by
  unfold isCanonicalPhone at h
  simp only [Bool.and_eq_true, decide_eq_true_eq] at h
  obtain ⟨⟨⟨hhead, hall⟩, _⟩, _⟩ := h
  rcases hl : s.toList with _ | ⟨c, t⟩
  · rw [hl] at hhead; simp at hhead
  · rw [hl] at hhead hall
    simp only [List.head?_cons, Option.some.injEq] at hhead
    subst hhead
    simp only [List.tail_cons] at hall
    have hclean : cleanPhoneL ('+' :: t) = '+' :: t := cleanPhoneL_canonical t hall
    have : parsePhoneToE164L s.toList = s.toList := by
      rw [hl]
      unfold parsePhoneToE164L
      simp [hclean]
    unfold parsePhoneToE164
    rw [this, mk_toList]

/-! ## Claims -/

/-- C8: `parsePhoneToE164` is idempotent on canonical inputs: for
every string already of the form `+` followed by 10-15 digits,
applying it twice equals applying it once. -/
theorem claim_C8_parse_idempotent (s : String) (h : isCanonicalPhone s = true) :
    parsePhoneToE164 (parsePhoneToE164 s) = parsePhoneToE164 s := by
  have hs := parsePhoneToE164_canonical s h
  rw [hs]
  exact hs

/-- Witness for C8 at the canonical input string `+15551234567`. -/
theorem claim_C8_witness :
    parsePhoneToE164 (parsePhoneToE164 "+15551234567") = parsePhoneToE164 "+15551234567" :=
  claim_C8_parse_idempotent "+15551234567" (by decide)

/-- C10: `cacheLocation` is a silent no-op (the stored cell is left
unchanged) when the coordinates are invalid or the name trims to the
empty string, and on a successful write it stores the trimmed name
with the current timestamp. -/
theorem claim_C10_cacheLocation_guarded (store : Option StoredCell) (now : Int)
    (lat lng : JNum) (name : String) :
    ((isValidCoordinates lat lng = false ∨ jsTrim name = "") →
      cacheLocation store now lat lng name = store) ∧
    (isValidCoordinates lat lng = true → jsTrim name ≠ "" →
      cacheLocation store now lat lng name =
        some (.entry ⟨lat, lng, jsTrim name, now⟩)) := by
  unfold cacheLocation
  constructor
  · rintro (h | h) <;> simp [h]
  · intro h1 h2
    simp [h1, h2]

/-- Witness for C10: an out-of-range write leaves the store as it
was, and a good write stores the trimmed name. -/
theorem claim_C10_witness :
    cacheLocation (some .malformed) 5 (.num 100) (.num 0) "x" = some .malformed ∧
    cacheLocation none 7 (.num 40) (.num (-75)) " Philly " =
      some (.entry ⟨.num 40, .num (-75), "Philly", 7⟩) := by
  refine ⟨(claim_C10_cacheLocation_guarded _ _ _ _ _).1 (Or.inl (by decide)), ?_⟩
  have h := (claim_C10_cacheLocation_guarded none 7 (.num 40) (.num (-75)) " Philly ").2
    (by decide) (by decide)
  rw [h]
  congr 1

/-- C2: `validatePhoneNumber` accepts exactly the strings whose
trimmed form starts with `+` followed by only decimal digits, between
10 and 15 of them; every rejection carries a non-empty message (and
the function is total, so it never throws). -/
theorem claim_C2_validatePhoneNumber (s : String) :
    ((validatePhoneNumber s).valid = true ↔
      ((jsTrimL s.toList).head? = some '+' ∧
        (jsTrimL s.toList).tail.all Char.isDigit = true ∧
        10 ≤ (jsTrimL s.toList).tail.length ∧
        (jsTrimL s.toList).tail.length ≤ 15)) ∧
    ((validatePhoneNumber s).valid = false →
      ∃ m : String, (validatePhoneNumber s).message = some m ∧ m ≠ "") := by
  constructor
  · constructor
    · intro hv
      unfold validatePhoneNumber validatePhoneNumberL at hv
      split_ifs at hv with h0 h1 h2 h3
      any_goals simp at hv
      -- accepting branch: read the conditions back off
      refine ⟨h1, ?_, by omega, by omega⟩
      have hX : (!(jsTrimL s.toList).tail.isEmpty &&
          (jsTrimL s.toList).tail.all Char.isDigit) = true := by
        rcases hb : (!(jsTrimL s.toList).tail.isEmpty &&
            (jsTrimL s.toList).tail.all Char.isDigit)
        · exact absurd (by rw [hb]; rfl) h2
        · rfl
      simp only [Bool.and_eq_true] at hX
      exact hX.2
    · rintro ⟨hp, hall, h10, h15⟩
      have hne : ¬(s.toList = []) := by
        intro h
        rw [h] at hp
        simp [jsTrimL] at hp
      have hemp : (jsTrimL s.toList).tail.isEmpty = false := by
        rcases ht : (jsTrimL s.toList).tail with _ | ⟨a, t⟩
        · rw [ht] at h10; simp at h10
        · rfl
      have hcond : (!(!(jsTrimL s.toList).tail.isEmpty &&
          (jsTrimL s.toList).tail.all Char.isDigit)) = false := by
        rw [hemp, hall]
        rfl
      unfold validatePhoneNumber validatePhoneNumberL
      rw [if_neg hne, if_pos hp,
        if_neg (show ¬((!(!(jsTrimL s.toList).tail.isEmpty &&
          (jsTrimL s.toList).tail.all Char.isDigit)) = true) by
            rw [hcond]; simp),
        if_neg (show ¬((jsTrimL s.toList).tail.length < 10 ∨
          (jsTrimL s.toList).tail.length > 15) by omega)]
  · intro hv
    unfold validatePhoneNumber validatePhoneNumberL at hv ⊢
    split_ifs at hv ⊢ <;>
      exact ⟨_, rfl, by decide⟩

/-- Witness for C2: a canonical number is accepted, and a number
without a country code is rejected with a non-empty message. -/
theorem claim_C2_witness :
    (validatePhoneNumber "+15551234567").valid = true ∧
    ∃ m : String, (validatePhoneNumber "5551234567").message = some m ∧ m ≠ "" :=
  ⟨(claim_C2_validatePhoneNumber "+15551234567").1.mpr (by decide),
   (claim_C2_validatePhoneNumber "5551234567").2 (by decide)⟩

/-- C9: every entry returned by `getCachedLocation` has numeric
coordinates within range and a timestamp at most 24 hours old; a
stored value that is unparseable, expired, or carries invalid
coordinates is removed from storage (not only the expired one) with
null returned. -/
theorem claim_C9_cache_read_invariant (store : Option StoredCell) (now : Int) :
    (∀ e : RawCachedLocation, (getCachedLocation store now).1 = some e →
      (∃ la lo : ℚ, e.latitude = .num la ∧ e.longitude = .num lo ∧
        -90 ≤ la ∧ la ≤ 90 ∧ -180 ≤ lo ∧ lo ≤ 180) ∧
      now - e.timestamp ≤ CACHE_DURATION_MS) ∧
    (store = some .malformed → getCachedLocation store now = (none, none)) ∧
    (∀ e : RawCachedLocation, store = some (.entry e) →
      (now - e.timestamp > CACHE_DURATION_MS ∨
        isValidCoordinates e.latitude e.longitude = false) →
      getCachedLocation store now = (none, none)) := by
  refine ⟨?_, ?_, ?_⟩
  · intro e he
    rcases store with _ | cell
    · simp [getCachedLocation] at he
    rcases cell with _ | e'
    · simp [getCachedLocation] at he
    · simp only [getCachedLocation] at he
      split_ifs at he with ht hc
      any_goals simp at he
      subst he
      have hc' : isValidCoordinates e'.latitude e'.longitude = true := by
        rcases hb : isValidCoordinates e'.latitude e'.longitude
        · exact absurd (by rw [hb]; rfl) hc
        · rfl
      constructor
      · rcases hla : e'.latitude with la | _ | _
        · rcases hlo : e'.longitude with lo | _ | _
          · rw [hla, hlo] at hc'
            simp only [isValidCoordinates, Bool.and_eq_true, decide_eq_true_eq] at hc'
            exact ⟨la, lo, rfl, rfl, hc'.1.1.1, hc'.1.1.2, hc'.1.2, hc'.2⟩
          · rw [hla, hlo] at hc'; simp [isValidCoordinates] at hc'
          · rw [hla, hlo] at hc'; simp [isValidCoordinates] at hc'
        · rw [hla] at hc'; simp [isValidCoordinates] at hc'
        · rw [hla] at hc'; simp [isValidCoordinates] at hc'
      · omega
  · intro h; subst h; rfl
  · intro e he hbad
    subst he
    simp only [getCachedLocation]
    rcases hbad with hbad | hbad
    · rw [if_pos hbad]
    · simp [hbad]

/-- Witness for C9: a fresh valid entry is returned in range; a
malformed cell and an expired entry are both cleared. -/
theorem claim_C9_witness :
    ((∃ la lo : ℚ, (⟨.num 40, .num (-75), "a", 0⟩ : RawCachedLocation).latitude = .num la ∧
        (⟨.num 40, .num (-75), "a", 0⟩ : RawCachedLocation).longitude = .num lo ∧
        -90 ≤ la ∧ la ≤ 90 ∧ -180 ≤ lo ∧ lo ≤ 180) ∧
      (5 : Int) - (⟨.num 40, .num (-75), "a", 0⟩ : RawCachedLocation).timestamp ≤ CACHE_DURATION_MS) ∧
    getCachedLocation (some .malformed) 5 = (none, none) ∧
    getCachedLocation (some (.entry ⟨.num 40, .num (-75), "a", 0⟩)) 86400001 = (none, none) :=
  ⟨(claim_C9_cache_read_invariant (some (.entry ⟨.num 40, .num (-75), "a", 0⟩)) 5).1
      ⟨.num 40, .num (-75), "a", 0⟩ (by decide),
   (claim_C9_cache_read_invariant (some .malformed) 5).2.1 rfl,
   (claim_C9_cache_read_invariant (some (.entry ⟨.num 40, .num (-75), "a", 0⟩)) 86400001).2.2
      ⟨.num 40, .num (-75), "a", 0⟩ rfl (Or.inl (by decide))⟩

/-- C5: writing the cache with `cacheLocation(40, -75, "Philadelphia
area")` and reading it back at the same instant returns the same
coordinates and name, `getUserLocation` serves it tagged `cache`, and
any stored entry older than 24 hours is cleared with null returned. -/
theorem claim_C5_cache_roundtrip (store : Option StoredCell) (now : Int)
    (detect : Option (ℚ × ℚ)) (geoName : ℚ → ℚ → String) :
    (getCachedLocation
        (cacheLocation store now (.num 40) (.num (-75)) "Philadelphia area") now).1 =
      some ⟨.num 40, .num (-75), "Philadelphia area", now⟩ ∧
    (getUserLocation
        (cacheLocation store now (.num 40) (.num (-75)) "Philadelphia area") now
        detect geoName).1 =
      some ⟨.num 40, .num (-75), "Philadelphia area", .cache⟩ ∧
    (∀ (e : RawCachedLocation) (t : Int), t - e.timestamp > CACHE_DURATION_MS →
      getCachedLocation (some (.entry e)) t = (none, none)) := by
  have hw : cacheLocation store now (.num 40) (.num (-75)) "Philadelphia area" =
      some (.entry ⟨.num 40, .num (-75), "Philadelphia area", now⟩) := by
    unfold cacheLocation
    rw [if_neg (by decide)]
    have hn : jsTrim "Philadelphia area" = "Philadelphia area" := by decide
    rw [hn]
  have hread : getCachedLocation
      (some (.entry (⟨.num 40, .num (-75), "Philadelphia area", now⟩ : RawCachedLocation)))
      now =
      (some ⟨.num 40, .num (-75), "Philadelphia area", now⟩,
       some (.entry ⟨.num 40, .num (-75), "Philadelphia area", now⟩)) := by
    simp only [getCachedLocation]
    rw [if_neg (show ¬(now - now > CACHE_DURATION_MS) by
          unfold CACHE_DURATION_MS; omega),
        if_neg (by decide)]
  refine ⟨?_, ?_, ?_⟩
  · rw [hw, hread]
  · unfold getUserLocation
    rw [hw, hread]
  · intro e t h
    simp only [getCachedLocation]
    rw [if_pos h]

/-- Witness for C5: the round trip at time 0, and expiry of a
24-hour-old entry one millisecond past the deadline. -/
theorem claim_C5_witness :
    (getCachedLocation (cacheLocation none 0 (.num 40) (.num (-75)) "Philadelphia area") 0).1 =
      some ⟨.num 40, .num (-75), "Philadelphia area", 0⟩ ∧
    getCachedLocation (some (.entry ⟨.num 40, .num (-75), "Philadelphia area", 0⟩)) 86400001 =
      (none, none) :=
  ⟨(claim_C5_cache_roundtrip none 0 none (fun _ _ => "")).1,
   (claim_C5_cache_roundtrip none 0 none (fun _ _ => "")).2.2
      ⟨.num 40, .num (-75), "Philadelphia area", 0⟩ 86400001 (by decide)⟩

/-- C1 (amended): the session gate redirects the root to `/feed` or
`/login` by session; a path matching a protected prefix with no user
is sent to `/login` carrying the original path in the `redirect`
parameter; a path matching a public-only prefix with a user present
is sent to `/feed`; a non-root path matching no protected prefix
passes through when unauthenticated, and one matching no public-only
prefix passes through when authenticated.  (The amendment: because
`/profile-setup` also matches the protected prefix `/profile`, an
unauthenticated request to it is redirected to `/login` rather than
passed through.) -/
theorem claim_C1_session_gate_amended :
    (∀ user : Bool, middleware "/" user =
      .redirect (if user then "/feed" else "/login") []) ∧
    (∀ path : String, isProtectedRoute path = true →
      middleware path false = .redirect "/login" [("redirect", path)]) ∧
    (∀ path : String, isPublicRoute path = true →
      middleware path true = .redirect "/feed" []) ∧
    (∀ path : String, path ≠ "/" → isProtectedRoute path = false →
      middleware path false = .next) ∧
    (∀ path : String, path ≠ "/" → isPublicRoute path = false →
      middleware path true = .next) := by
  refine ⟨?_, ?_, ?_, ?_, ?_⟩
  · intro user
    cases user <;> rfl
  · intro path hp
    have hroot : path ≠ "/" := by
      intro h; subst h; exact absurd hp (by decide)
    unfold middleware
    rw [if_neg hroot,
      if_pos (show (isProtectedRoute path && !false) = true by rw [hp]; rfl)]
  · intro path hp
    have hroot : path ≠ "/" := by
      intro h; subst h; exact absurd hp (by decide)
    unfold middleware
    rw [if_neg hroot,
      if_neg (show ¬((isProtectedRoute path && !true) = true) by simp),
      if_pos (show (isPublicRoute path && true) = true by rw [hp]; rfl)]
  · intro path hroot hp
    unfold middleware
    rw [if_neg hroot,
      if_neg (show ¬((isProtectedRoute path && !false) = true) by rw [hp]; simp),
      if_neg (show ¬((isPublicRoute path && false) = true) by simp)]
  · intro path hroot hp
    unfold middleware
    rw [if_neg hroot,
      if_neg (show ¬((isProtectedRoute path && !true) = true) by simp),
      if_neg (show ¬((isPublicRoute path && true) = true) by rw [hp]; simp)]

/-- Counterexample for C1 as stated: `/profile-setup` is a
public-only route, yet its unauthenticated request does not pass
through unchanged — it matches the protected prefix `/profile` and is
redirected. -/
theorem claim_C1_counterexample :
    isPublicRoute "/profile-setup" = true ∧
    middleware "/profile-setup" false ≠ MwResponse.next ∧
    middleware "/profile-setup" false =
      .redirect "/login" [("redirect", "/profile-setup")] :=
  ⟨by decide, by decide, by decide⟩

/-- Witness for C1: the amended rules at concrete requests. -/
theorem claim_C1_witness :
    middleware "/" false = .redirect (if false then "/feed" else "/login") [] ∧
    middleware "/profile" false = .redirect "/login" [("redirect", "/profile")] ∧
    middleware "/login" true = .redirect "/feed" [] ∧
    middleware "/about" false = .next ∧
    middleware "/about" true = .next :=
  ⟨claim_C1_session_gate_amended.1 false,
   claim_C1_session_gate_amended.2.1 "/profile" (by decide),
   claim_C1_session_gate_amended.2.2.1 "/login" (by decide),
   claim_C1_session_gate_amended.2.2.2.1 "/about" (by decide) (by decide),
   claim_C1_session_gate_amended.2.2.2.2 "/about" (by decide) (by decide)⟩

/-- C6: `formatPhoneForDisplay` renders `(AAA) EEE-NNNN` when the
input's digits are an 11-digit run led by `1` (dropping that `1`) or
a bare 10-digit run; every other input — including every other
`+`-prefixed value — comes back unchanged, and the function is total
(never throws). -/
theorem claim_C6_formatPhoneForDisplay (s : String) :
    ((s.toList.filter Char.isDigit).length = 11 ∧
        (s.toList.filter Char.isDigit).head? = some '1' →
      formatPhoneForDisplay s =
        String.mk (usDisplayL (s.toList.filter Char.isDigit).tail)) ∧
    ((s.toList.filter Char.isDigit).length = 10 →
      formatPhoneForDisplay s =
        String.mk (usDisplayL (s.toList.filter Char.isDigit))) ∧
    (¬((s.toList.filter Char.isDigit).length = 11 ∧
        (s.toList.filter Char.isDigit).head? = some '1') →
      (s.toList.filter Char.isDigit).length ≠ 10 →
      formatPhoneForDisplay s = s) := by
  refine ⟨?_, ?_, ?_⟩
  · rintro ⟨h11, h1⟩
    have hne : ¬(s.toList = []) := by
      intro h; rw [h] at h11; simp at h11
    unfold formatPhoneForDisplay formatPhoneForDisplayL
    rw [if_neg hne, if_pos ⟨h11, h1⟩]
  · intro h10
    have hne : ¬(s.toList = []) := by
      intro h; rw [h] at h10; simp at h10
    have hn11 : ¬((s.toList.filter Char.isDigit).length = 11 ∧
        (s.toList.filter Char.isDigit).head? = some '1') := by
      rintro ⟨h11, _⟩; omega
    unfold formatPhoneForDisplay formatPhoneForDisplayL
    rw [if_neg hne, if_neg hn11, if_pos h10]
  · intro hn11 hn10
    by_cases hne : s.toList = []
    · have hs : s = "" := by
        rw [← mk_toList s, hne]
      rw [hs]
      rfl
    · unfold formatPhoneForDisplay formatPhoneForDisplayL
      rw [if_neg hne, if_neg hn11, if_neg hn10, mk_toList]

/-- Witness for C6: an E.164 US number, a bare 10-digit number, and
an international number returned unchanged. -/
theorem claim_C6_witness :
    formatPhoneForDisplay "+15551234567" =
      String.mk (usDisplayL ("+15551234567".toList.filter Char.isDigit).tail) ∧
    formatPhoneForDisplay "5551234567" =
      String.mk (usDisplayL ("5551234567".toList.filter Char.isDigit)) ∧
    formatPhoneForDisplay "+445551234567" = "+445551234567" :=
  ⟨(claim_C6_formatPhoneForDisplay "+15551234567").1 ⟨by decide, by decide⟩,
   (claim_C6_formatPhoneForDisplay "5551234567").2.1 (by decide),
   (claim_C6_formatPhoneForDisplay "+445551234567").2.2 (by decide) (by decide)⟩

/-- An API-style error carrying both a 401 status and a network
message: the classifier's network check runs first. -/
def ex401net : JSError :=
  { str := "Error: network timeout while refreshing session token"
    message := some "network timeout while refreshing session token"
    status := some 401 }

/-- Counterexample for C4 as stated: an error whose status field is
401 but whose rendering mentions "network" is classified NETWORK and
retryable, not AUTHENTICATION. -/
theorem claim_C4_counterexample :
    ex401net.status = some 401 ∧
    (createErrorInfo ex401net none none).type = ErrorType.NETWORK ∧
    (createErrorInfo ex401net none none).type ≠ ErrorType.AUTHENTICATION ∧
    (createErrorInfo ex401net none none).retryable = true :=
  ⟨rfl, by decide, by decide, by decide⟩

/-- The `type` field of `createErrorInfo` is the detected type. -/
lemma createErrorInfo_type (e : JSError) (ctx cm : Option String) :
    (createErrorInfo e ctx cm).type = detectErrorType (some e) ctx := rfl

/-- The `retryable` field of `createErrorInfo` comes straight from
the `ERROR_MESSAGES` entry of the detected type. -/
lemma createErrorInfo_retryable (e : JSError) (ctx cm : Option String) :
    (createErrorInfo e ctx cm).retryable =
      (ERROR_MESSAGES (detectErrorType (some e) ctx)).retryable := rfl

/-- C4 (amended): a 401-status error is classified AUTHENTICATION
with `retryable` false provided it matches no network indicator
(which is checked first); and any error whose `toString()` contains
"network" — as an `Error` instance with "network" in its message
does — is classified NETWORK with `retryable` true. -/
theorem claim_C4_createErrorInfo_amended :
    (∀ (e : JSError) (ctx : Option String), e.status = some 401 →
      networkCond e = false →
      (createErrorInfo e ctx none).type = ErrorType.AUTHENTICATION ∧
      (createErrorInfo e ctx none).retryable = false) ∧
    (∀ (e : JSError) (ctx : Option String), lowerIncludes e.str "network" = true →
      (createErrorInfo e ctx none).type = ErrorType.NETWORK ∧
      (createErrorInfo e ctx none).retryable = true) := by
  constructor
  · intro e ctx h401 hnet
    have hauth : authCond e = true := by
      unfold authCond
      rw [h401]
      simp
    have hdet : detectErrorType (some e) ctx = .AUTHENTICATION := by
      simp only [detectErrorType]
      rw [hnet, hauth]
      simp
    exact ⟨by rw [createErrorInfo_type, hdet],
           by rw [createErrorInfo_retryable, hdet]; rfl⟩
  · intro e ctx hnet
    have hn : networkCond e = true := by
      unfold networkCond
      rw [hnet]
      simp
    have hdet : detectErrorType (some e) ctx = .NETWORK := by
      simp only [detectErrorType]
      rw [hn]
      simp
    exact ⟨by rw [createErrorInfo_type, hdet],
           by rw [createErrorInfo_retryable, hdet]; rfl⟩

/-- A plain API error object: 401 status, no network indicator. -/
def exAuth401 : JSError := { str := "[object Object]", status := some 401 }

/-- An `Error` instance whose message mentions the network. -/
def exNetwork : JSError :=
  { str := "Error: network request failed"
    message := some "network request failed" }

/-- Witness for C4 (amended) at a plain 401 object and a network
error instance. -/
theorem claim_C4_witness :
    ((createErrorInfo exAuth401 none none).type = ErrorType.AUTHENTICATION ∧
      (createErrorInfo exAuth401 none none).retryable = false) ∧
    ((createErrorInfo exNetwork none none).type = ErrorType.NETWORK ∧
      (createErrorInfo exNetwork none none).retryable = true) :=
  ⟨claim_C4_createErrorInfo_amended.1 exAuth401 none rfl (by decide),
   claim_C4_createErrorInfo_amended.2 exNetwork none (by decide)⟩

/-- Digit count of an all-digit list is its length. -/
lemma digitCountL_of_all_digits (d : List Char)
    (hd : ∀ c ∈ d, Char.isDigit c = true) : digitCountL d = d.length := by
  unfold digitCountL
  rw [List.filter_eq_self.mpr hd]

/-- Digit count distributes over append. -/
lemma digitCountL_append (a b : List Char) :
    digitCountL (a ++ b) = digitCountL a + digitCountL b := by
  unfold digitCountL
  rw [List.filter_append, List.length_append]

/-- Prepending a non-digit leaves the digit count unchanged. -/
lemma digitCountL_cons_nondigit (c : Char) (l : List Char)
    (hc : Char.isDigit c = false) : digitCountL (c :: l) = digitCountL l := by
  simp [digitCountL, List.filter_cons, hc]

/-- Up to ten digits, `formatUSPhone` only inserts punctuation: the
digit count of its output is the length of its all-digit input. -/
lemma formatUSPhoneL_digitCount (d : List Char)
    (hd : ∀ c ∈ d, Char.isDigit c = true) (hlen : d.length ≤ 10) :
    digitCountL (formatUSPhoneL d) = d.length := by
  have hsub : ∀ (m : List Char), (∀ c ∈ m, c ∈ d) → digitCountL m = m.length :=
    fun m hm => digitCountL_of_all_digits m (fun c hc => hd c (hm c hc))
  have htake : ∀ n : Nat, digitCountL (d.take n) = (d.take n).length :=
    fun n => hsub _ (fun c hc => List.take_subset n d hc)
  have hdrop : ∀ n : Nat, digitCountL (d.drop n) = (d.drop n).length :=
    fun n => hsub _ (fun c hc => List.drop_subset n d hc)
  have hmid : digitCountL ((d.drop 3).take 3) = ((d.drop 3).take 3).length :=
    hsub _ (fun c hc => List.drop_subset 3 d (List.take_subset 3 (d.drop 3) hc))
  have hall : digitCountL d = d.length := digitCountL_of_all_digits d hd
  unfold formatUSPhoneL
  split_ifs with h0 h1 h2
  · simp [digitCountL]
    omega
  · rw [digitCountL_cons_nondigit _ _ (by decide), hall]
  · rw [digitCountL_append, digitCountL_cons_nondigit _ _ (by decide),
      digitCountL_cons_nondigit _ _ (by decide),
      digitCountL_cons_nondigit _ _ (by decide),
      htake 3, hdrop 3, List.length_take, List.length_drop]
    omega
  · rw [digitCountL_append, digitCountL_cons_nondigit _ _ (by decide),
      digitCountL_append, digitCountL_cons_nondigit _ _ (by decide),
      digitCountL_cons_nondigit _ _ (by decide),
      digitCountL_cons_nondigit _ _ (by decide),
      htake 3, hmid, hdrop 6, List.length_take, List.length_drop,
      List.length_take, List.length_drop]
    omega

/-- Counterexample for C7 as stated: the domestic E.164 input
`+15551234567` has 11 digit characters but the as-you-type rendering
drops the country-code `1`, leaving 10. -/
theorem claim_C7_counterexample :
    digitCount "+15551234567" = 11 ∧
    digitCount (formatPhoneAsUserTypes "+15551234567") = 10 ∧
    digitCount (formatPhoneAsUserTypes "+15551234567") ≠ digitCount "+15551234567" :=
  ⟨by decide, by decide, by decide⟩

/-- C7 (amended): for a domestic input with no `+` sign and at most
ten digits, `formatPhoneAsUserTypes` preserves the digit count —
formatting only adds punctuation.  (Inputs carrying a `+1` country
code lose the leading `1` in the display, and bare inputs beyond ten
digits are truncated to ten.) -/
theorem claim_C7_digit_preservation_amended (s : String)
    (hplus : '+' ∉ s.toList) (hcount : digitCount s ≤ 10) :
    digitCount (formatPhoneAsUserTypes s) = digitCount s := by
  by_cases hnil : s.toList = []
  · unfold formatPhoneAsUserTypes formatPhoneAsUserTypesL
    rw [if_pos hnil]
    unfold digitCount
    rw [hnil]
    rfl
  · have hclean : cleanPhoneL s.toList = s.toList.filter Char.isDigit := by
      unfold cleanPhoneL
      apply List.filter_congr
      intro c hc
      have hne : ¬(c = '+') := fun h => hplus (h ▸ hc)
      simp [hne]
    have hd : ∀ c ∈ s.toList.filter Char.isDigit, Char.isDigit c = true := by
      intro c hc
      exact (List.mem_filter.mp hc).2
    have hlen : (s.toList.filter Char.isDigit).length = digitCount s := rfl
    have hhead : ¬((cleanPhoneL s.toList).head? = some '+') := by
      rw [hclean]
      intro h
      rcases hf : s.toList.filter Char.isDigit with _ | ⟨c, t⟩
      · rw [hf] at h; simp at h
      · rw [hf] at h
        simp only [List.head?_cons, Option.some.injEq] at h
        have hcd : Char.isDigit c = true :=
          hd c (by rw [hf]; exact List.mem_cons_self c t)
        rw [h] at hcd
        exact absurd hcd (by decide)
    unfold formatPhoneAsUserTypes formatPhoneAsUserTypesL
    rw [if_neg hnil, if_neg hhead, hclean]
    have hmk : digitCount (String.mk (formatUSPhoneL (s.toList.filter Char.isDigit))) =
        digitCountL (formatUSPhoneL (s.toList.filter Char.isDigit)) := rfl
    rw [hmk, formatUSPhoneL_digitCount _ hd (by rw [hlen]; exact hcount)]
    exact hlen

/-- Witness for C7 (amended): a formatted domestic number with ten
digits and no plus sign keeps its digit count. -/
theorem claim_C7_witness :
    digitCount (formatPhoneAsUserTypes "(555) 123-4567") = digitCount "(555) 123-4567" :=
  claim_C7_digit_preservation_amended "(555) 123-4567" (by decide) (by decide)

/-- The retry loop performs at most `fuel` invocations. -/
lemma retryGo_invocations_le {α : Type} (op : Nat → Except JSError α)
    (opts : RetryOptions) :
    ∀ (fuel attempt : Nat), (retryGo op opts fuel attempt).invocations ≤ fuel := by
  intro fuel
  induction fuel with
  | zero =>
    intro attempt
    simp [retryGo]
  | succ f ih =>
    intro attempt
    rcases hop : op attempt with e | v
    · simp only [retryGo, hop]
      split_ifs with h1 h2 h3 <;>
        (have hle := ih (attempt + 1)
         first
          | (simp
             omega)
          | simp)
    · simp [retryGo, hop]

/-- The delays slept by the retry loop follow the backoff schedule
`delay * 2 ^ (attempt - 1)` (or a flat `delay`) from the starting
attempt on. -/
lemma retryGo_delays {α : Type} (op : Nat → Except JSError α) (opts : RetryOptions) :
    ∀ (fuel attempt : Nat), 1 ≤ attempt →
      ∃ m : Nat, (retryGo op opts fuel attempt).delays =
        (List.range m).map
          (fun j => if opts.backoff then opts.delay * 2 ^ (attempt - 1 + j)
                    else opts.delay) := by
  intro fuel
  induction fuel with
  | zero =>
    intro attempt _
    exact ⟨0, by simp [retryGo]⟩
  | succ f ih =>
    intro attempt ha
    rcases hop : op attempt with e | v
    · by_cases hr : retryableOf e = true
      · by_cases hf : f = 0
        · refine ⟨0, ?_⟩
          subst hf
          simp [retryGo, hop, hr]
        · obtain ⟨m, hm⟩ := ih (attempt + 1) (by omega)
          refine ⟨m + 1, ?_⟩
          simp only [retryGo, hop]
          rw [if_neg (by simp [hr]), if_neg hf]
          simp only []
          rw [hm, List.range_succ_eq_map, List.map_cons, List.map_map]
          simp only [List.cons.injEq]
          constructor
          · simp
          · apply List.map_congr_left
            intro j hj
            simp only [Function.comp_apply]
            have h1 : attempt + 1 - 1 + j = attempt + j := by omega
            have h2 : attempt - 1 + (j + 1) = attempt + j := by omega
            rw [h1, h2]
      · refine ⟨0, ?_⟩
        have hr' : retryableOf e = false := by
          rcases hb : retryableOf e
          · rfl
          · exact absurd hb hr
        simp [retryGo, hop, hr']
    · exact ⟨0, by simp [retryGo, hop]⟩

/-- When every attempt in the window throws a retryable error, the
loop uses all its fuel and rethrows the error of the last attempt. -/
lemma retryGo_allFail {α : Type} (op : Nat → Except JSError α) (opts : RetryOptions) :
    ∀ (fuel attempt : Nat), 1 ≤ fuel →
      (∀ i, attempt ≤ i → i < attempt + fuel →
        ∃ e, op i = .error e ∧ retryableOf e = true) →
      (retryGo op opts fuel attempt).invocations = fuel ∧
      ∃ e, op (attempt + fuel - 1) = .error e ∧
        (retryGo op opts fuel attempt).outcome = .error (some e) := by
  intro fuel
  induction fuel with
  | zero =>
    intro attempt h
    omega
  | succ f ih =>
    intro attempt hf hall
    obtain ⟨e, hop, hr⟩ := hall attempt (le_refl _) (by omega)
    by_cases hf0 : f = 0
    · subst hf0
      refine ⟨by simp [retryGo, hop, hr], e, by simpa using hop, ?_⟩
      simp [retryGo, hop, hr]
    · have ihres := ih (attempt + 1) (by omega)
        (fun i h1 h2 => hall i (by omega) (by omega))
      constructor
      · have h1 := ihres.1
        simp [retryGo, hop, hr, hf0, h1]
      · obtain ⟨e2, hop2, hout⟩ := ihres.2
        refine ⟨e2, ?_, ?_⟩
        · have heq : attempt + 1 + f - 1 = attempt + (f + 1) - 1 := by omega
          rw [← heq]
          exact hop2
        · simp [retryGo, hop, hr, hf0, hout]

/-- One unrolling of the retry loop on a retryable failure with fuel
remaining. -/
lemma retryGo_succ_step {α : Type} (op : Nat → Except JSError α) (opts : RetryOptions)
    (fuel attempt : Nat) (e : JSError) (hop : op attempt = .error e)
    (hr : retryableOf e = true) (hf : fuel ≠ 0) :
    retryGo op opts (fuel + 1) attempt =
      ⟨(retryGo op opts fuel (attempt + 1)).outcome,
       (retryGo op opts fuel (attempt + 1)).invocations + 1,
       (if opts.backoff then opts.delay * 2 ^ (attempt - 1) else opts.delay) ::
         (retryGo op opts fuel (attempt + 1)).delays⟩ := by
  simp only [retryGo, hop]
  rw [if_neg (by simp [hr]), if_neg hf]

/-- C3: `retryOperation` invokes the operation at most `maxAttempts`
times; a non-retryable classified error is rethrown immediately after
one invocation; the inter-attempt delays follow `delay * 2^(attempt-1)`
under backoff (flat `delay` otherwise); when every attempt fails with
a retryable error, all `maxAttempts` invocations happen and the last
error is rethrown; and in particular an always-NETWORK-throwing
operation under `{maxAttempts: 3, delay: 10, backoff: true}` is
invoked exactly 3 times with delays 10 and 20 and its error
rethrown. -/
theorem claim_C3_retryOperation :
    (∀ (α : Type) (op : Nat → Except JSError α) (opts : RetryOptions),
      (retryOperation op opts).invocations ≤ opts.maxAttempts) ∧
    (∀ (α : Type) (op : Nat → Except JSError α) (opts : RetryOptions)
      (fuel attempt : Nat) (e : JSError),
      op attempt = .error e → retryableOf e = false →
      retryGo op opts (fuel + 1) attempt = ⟨.error (some e), 1, []⟩) ∧
    (∀ (α : Type) (op : Nat → Except JSError α) (opts : RetryOptions),
      ∃ m : Nat, (retryOperation op opts).delays =
        (List.range m).map
          (fun j => if opts.backoff then opts.delay * 2 ^ j else opts.delay)) ∧
    (∀ (α : Type) (op : Nat → Except JSError α) (opts : RetryOptions),
      1 ≤ opts.maxAttempts →
      (∀ i, 1 ≤ i → i ≤ opts.maxAttempts →
        ∃ e, op i = .error e ∧ retryableOf e = true) →
      (retryOperation op opts).invocations = opts.maxAttempts ∧
      ∃ e, op opts.maxAttempts = .error e ∧
        (retryOperation op opts).outcome = .error (some e)) ∧
    (∀ e : JSError, detectErrorType (some e) none = .NETWORK →
      retryOperation (fun _ => (.error e : Except JSError Nat)) ⟨3, 10, true⟩ =
        ⟨.error (some e), 3, [10, 20]⟩) := by
  refine ⟨?_, ?_, ?_, ?_, ?_⟩
  · intro α op opts
    exact retryGo_invocations_le op opts opts.maxAttempts 1
  · intro α op opts fuel attempt e hop hr
    simp [retryGo, hop, hr]
  · intro α op opts
    obtain ⟨m, hm⟩ := retryGo_delays op opts opts.maxAttempts 1 (le_refl 1)
    refine ⟨m, ?_⟩
    unfold retryOperation
    rw [hm]
    simp
  · intro α op opts h1 hall
    have hres := retryGo_allFail op opts opts.maxAttempts 1 h1
      (fun i hi1 hi2 => hall i hi1 (by omega))
    unfold retryOperation
    refine ⟨hres.1, ?_⟩
    obtain ⟨e, hope, hout⟩ := hres.2
    have heq : 1 + opts.maxAttempts - 1 = opts.maxAttempts := by omega
    rw [heq] at hope
    exact ⟨e, hope, hout⟩
  · intro e hdet
    have hr : retryableOf e = true := by
      unfold retryableOf
      rw [hdet]
      rfl
    have t1 : retryGo (fun _ => (.error e : Except JSError Nat)) ⟨3, 10, true⟩ 1 (2 + 1) =
        ⟨.error (some e), 1, []⟩ := by
      show retryGo (fun _ => (.error e : Except JSError Nat)) ⟨3, 10, true⟩ (0 + 1) (2 + 1) =
        ⟨.error (some e), 1, []⟩
      simp only [retryGo]
      rw [if_neg (by simp [hr])]
      simp
    have t2 : retryGo (fun _ => (.error e : Except JSError Nat)) ⟨3, 10, true⟩ 2 (1 + 1) =
        ⟨.error (some e), 2, [20]⟩ := by
      show retryGo (fun _ => (.error e : Except JSError Nat)) ⟨3, 10, true⟩ (1 + 1) (1 + 1) =
        ⟨.error (some e), 2, [20]⟩
      rw [retryGo_succ_step _ _ 1 (1 + 1) e rfl hr (by decide), t1]
      norm_num
    show retryGo (fun _ => (.error e : Except JSError Nat)) ⟨3, 10, true⟩ (2 + 1) 1 =
      ⟨.error (some e), 3, [10, 20]⟩
    rw [retryGo_succ_step _ _ 2 1 e rfl hr (by decide), t2]
    norm_num

/-- An error classified NETWORK (retryable) by the classifier. -/
def netFailure : JSError :=
  { str := "Error: network failure", message := some "network failure" }

/-- An error classified AUTHENTICATION (not retryable). -/
def authFailure : JSError :=
  { str := "Error: unauthorized", message := some "unauthorized" }

/-- Witness for C3: the immediate-rethrow clause on a non-retryable
error, the exhaustion clause, and the concrete 3-attempt NETWORK run. -/
theorem claim_C3_witness :
    retryGo (fun _ => (.error authFailure : Except JSError Nat)) ⟨3, 10, true⟩ (0 + 1) 1 =
      ⟨.error (some authFailure), 1, []⟩ ∧
    ((retryOperation (fun _ => (.error netFailure : Except JSError Nat)) ⟨3, 10, true⟩).invocations = 3 ∧
      ∃ e2 : JSError, (fun _ => (.error netFailure : Except JSError Nat)) 3 = Except.error e2 ∧
        (retryOperation (fun _ => (.error netFailure : Except JSError Nat)) ⟨3, 10, true⟩).outcome =
          .error (some e2)) ∧
    retryOperation (fun _ => (.error netFailure : Except JSError Nat)) ⟨3, 10, true⟩ =
      ⟨.error (some netFailure), 3, [10, 20]⟩ :=
  ⟨claim_C3_retryOperation.2.1 Nat (fun _ => .error authFailure) ⟨3, 10, true⟩ 0 1
      authFailure rfl (by decide),
   claim_C3_retryOperation.2.2.2.1 Nat (fun _ => .error netFailure) ⟨3, 10, true⟩
      (by decide) (fun i h1 h2 => ⟨netFailure, rfl, by decide⟩),
   claim_C3_retryOperation.2.2.2.2 netFailure (by decide)⟩

end MobilePwa
